import Mathlib

/-!
Shallow embedding of the PyDracula GUI view (src/views/main_window_view.py and
src/main.py).  The widget tree itself is external toolkit plumbing; what is
embedded here is the view state that the Python methods read and write:
the menu buttons with their checked / selected / enabled flags, the stacked
page index, the title and credits labels, the table rows, the three
collapsible panel geometries, the pending width animations, the scheduled
status-reversion timers, and a trace of the signal emissions and animation
starts performed by the handlers.  Each Lean function below embeds one Python
method of MainWindowView, line by line.
-/

namespace PyDracula

/-- Embedding of the Python builtin str.title used in select_menu:
an alphabetic character is uppercased when the previous character is not
alphabetic and lowercased otherwise; non-alphabetic characters are kept. -/
def pythonTitleAux : Bool → List Char → List Char
  | _, [] => []
  | prevAlpha, c :: cs =>
    if c.isAlpha then
      (if prevAlpha then c.toLower else c.toUpper) :: pythonTitleAux true cs
    else
      c :: pythonTitleAux false cs

/-- Python str.title over a whole string. -/
def pythonTitle (s : String) : String :=
  String.mk (pythonTitleAux false s.data)

/-- Embedding of the Python call menu.replace("_", " "): the pattern is the
single character underscore, so the call maps every underscore to a space. -/
def replaceUnderscoreWithSpace (s : String) : String :=
  String.mk (s.data.map (fun c => if c = '_' then ' ' else c))

/-- State of one menu QPushButton: the Qt checked flag, the dynamic
"selected" property and the enabled flag. -/
structure MenuButton where
  checked : Bool
  selectedProp : Bool
  enabled : Bool
  deriving Repr, DecidableEq

/-- Width geometry of a collapsible QFrame panel: minimumWidth, maximumWidth
and the rendered width. -/
structure Panel where
  minW : Int
  maxW : Int
  width : Int
  deriving Repr, DecidableEq

/-- A started QPropertyAnimation on the minimumWidth property of a panel. -/
structure Anim where
  startVal : Int
  endVal : Int
  duration : Nat
  deriving Repr, DecidableEq

/-- The three collapsible panels of the view. -/
inductive PanelId
  | mainMenu
  | extraLeft
  | extraRight
  deriving Repr, DecidableEq

/-- The Qt signals declared on MainWindowView. -/
inductive Event
  | menuChanged (menu : String)
  | saveRequested
  | settingsRequested
  | exitRequested
  | windowControlRequested (action : String)
  deriving Repr, DecidableEq

/-- Observable action of a handler: a signal emission or the start of a
panel width animation toward a target width. -/
inductive Action
  | emit (e : Event)
  | animStart (panel : PanelId) (startVal endVal : Int)
  deriving Repr, DecidableEq

/-- One row of the QTableWidget: the three columns, each holding an item
text when a QTableWidgetItem has been set and nothing otherwise. -/
structure Row where
  cell0 : Option String
  cell1 : Option String
  cell2 : Option String
  deriving Repr, DecidableEq

/-- A row with no items, as produced by growing the row count. -/
def emptyRow : Row := ⟨none, none, none⟩

/-- Write one cell of a row (QTableWidget.setItem at a column of this
three-column table; other column indices are out of range and ignored). -/
def Row.setCell (r : Row) (col : Nat) (v : String) : Row :=
  match col with
  | 0 => { r with cell0 := some v }
  | 1 => { r with cell1 := some v }
  | 2 => { r with cell2 := some v }
  | _ => r

/-- Read one cell of a row. -/
def Row.cell (r : Row) (col : Nat) : Option String :=
  match col with
  | 0 => r.cell0
  | 1 => r.cell1
  | 2 => r.cell2
  | _ => none

/-- An input record passed to set_table_data: a dict that may or may not
carry each of the keys name, category and status. -/
structure TableRecord where
  name : Option String
  category : Option String
  status : Option String
  deriving Repr, DecidableEq

/-- A record returned by get_table_data: all three fields present. -/
structure OutRecord where
  name : String
  category : String
  status : String
  deriving Repr, DecidableEq

/-- QTableWidget.setRowCount: truncate to n rows or grow with item-less
rows. -/
def setRowCount (n : Nat) (t : List Row) : List Row :=
  t.take n ++ List.replicate (n - t.length) emptyRow

/-- QTableWidget.setItem at (row, col): no effect when row is out of
range. -/
def setItem (t : List Row) (row col : Nat) (v : String) : List Row :=
  match t.get? row with
  | some r => t.set row (r.setCell col v)
  | none => t

/-- The enumerate loop body of set_table_data, starting at row index i:
for each record, set the three cells from record.get(key, ""). -/
def setRowsFrom : Nat → List TableRecord → List Row → List Row
  | _, [], t => t
  | i, r :: rs, t =>
    setRowsFrom (i + 1) rs
      (setItem (setItem (setItem t i 0 (r.name.getD ""))
        i 1 (r.category.getD "")) i 2 (r.status.getD ""))

/-- MainWindowView.set_table_data: setRowCount(len(data)) then the
enumerate loop writing the three cells of each row. -/
def set_table_data (data : List TableRecord) (t : List Row) : List Row :=
  setRowsFrom 0 data (setRowCount data.length t)

/-- MainWindowView.item_text helper: item.text() if an item exists at
(row, column) else the empty string. -/
def item_text (t : List Row) (row col : Nat) : String :=
  match t.get? row with
  | some r => (r.cell col).getD ""
  | none => ""

/-- MainWindowView.get_table_data: one record per row of the current row
count, reading the three columns through item_text. -/
def get_table_data (t : List Row) : List OutRecord :=
  (List.range t.length).map
    (fun row => ⟨item_text t row 0, item_text t row 1, item_text t row 2⟩)

/-- MainWindowView.clear_table: setRowCount(0). -/
def clear_table (t : List Row) : List Row := setRowCount 0 t

/-- The view state touched by the embedded methods.  Buttons that
set_form_enabled does not visit keep their own enabled flags
(extraCloseColumnBtn, btn_message, btn_print, btn_logout in the extra left
box; btn_adjustments, btn_more in the right settings box). -/
structure ViewState where
  menuButtons : List (String × MenuButton)
  btn_save_enabled : Bool
  btn_exit_enabled : Bool
  toggleButton_enabled : Bool
  toggleLeftBox_enabled : Bool
  settingsTopBtn_enabled : Bool
  minimizeAppBtn_enabled : Bool
  maximizeRestoreAppBtn_enabled : Bool
  closeAppBtn_enabled : Bool
  extraCloseColumnBtn_enabled : Bool
  btn_message_enabled : Bool
  btn_print_enabled : Bool
  btn_logout_enabled : Bool
  btn_adjustments_enabled : Bool
  btn_more_enabled : Bool
  stackedIndex : Nat
  titleRightInfo : String
  creditsLabel : String
  defaultStatusText : String
  table : List Row
  leftMenuBg : Panel
  extraLeftBox : Panel
  extraRightBox : Panel
  menuAnim : Option Anim
  extraLeftAnim : Option Anim
  extraRightAnim : Option Anim
  timers : List Int
  trace : List Action
  deriving Repr, DecidableEq

/-- The page index map of select_menu. -/
def indexMap : List (String × Nat) := [("home", 0), ("widgets", 1), ("new", 2)]

/-- MainWindowView.select_menu: recompute checked and the selected property
of every menu button, switch the stacked page when the id is in the index
map, and unconditionally rewrite the title label from the id. -/
def select_menu (menu : String) (s : ViewState) : ViewState :=
  let btns := s.menuButtons.map (fun p =>
    (p.1, { p.2 with checked := p.1 == menu, selectedProp := p.1 == menu }))
  let s1 := { s with menuButtons := btns }
  let s2 :=
    match List.lookup menu indexMap with
    | some i => { s1 with stackedIndex := i }
    | none => s1
  { s2 with titleRightInfo := pythonTitle (replaceUnderscoreWithSpace menu) }

/-- MainWindowView.on_menu_clicked: select the menu, then emit
menu_changed(menu). -/
def on_menu_clicked (menu : String) (s : ViewState) : ViewState :=
  let s1 := select_menu menu s
  { s1 with trace := s1.trace ++ [Action.emit (Event.menuChanged menu)] }

/-- A user click on the menu button wired in connect_signals: each menu
button is connected to on_menu_clicked with its own id. -/
def click_menu_button (menu : String) (s : ViewState) : ViewState :=
  on_menu_clicked menu s

/-- MainWindowView.set_form_enabled: set the enabled flag of the three menu
buttons, save, exit, the two toggle buttons and the four top bar buttons.
The extra left box buttons and the right settings box buttons are not
visited. -/
def set_form_enabled (enabled : Bool) (s : ViewState) : ViewState :=
  { s with
      menuButtons := s.menuButtons.map (fun p => (p.1, { p.2 with enabled := enabled }))
      btn_save_enabled := enabled
      btn_exit_enabled := enabled
      toggleButton_enabled := enabled
      toggleLeftBox_enabled := enabled
      settingsTopBtn_enabled := enabled
      minimizeAppBtn_enabled := enabled
      maximizeRestoreAppBtn_enabled := enabled
      closeAppBtn_enabled := enabled }

/-- MainWindowView.show_status_message: set the credits label text at once;
when the duration is truthy (nonzero), schedule one single-shot reversion
timer with that duration. -/
def show_status_message (message : String) (duration : Int) (s : ViewState) : ViewState :=
  let s1 := { s with creditsLabel := message }
  if duration ≠ 0 then { s1 with timers := s1.timers ++ [duration] } else s1

/-- Firing of the oldest scheduled reversion timer: the QTimer.singleShot
callback sets the credits label back to the default status text. -/
def fire_status_timer (s : ViewState) : ViewState :=
  match s.timers with
  | [] => s
  | _ :: rest => { s with creditsLabel := s.defaultStatusText, timers := rest }

/-- Clamp a rendered width into the interval given by minimumWidth and
maximumWidth, as the Qt layout does. -/
def clampWidth (lo hi v : Int) : Int := max lo (min v hi)

/-- MainWindowView.toggle_menu: read the current width, choose 60 when the
width exceeds 60 else 240, reset maximumWidth to 240, and start the
minimumWidth animation toward the target. -/
def toggle_menu (s : ViewState) : ViewState :=
  let current := s.leftMenuBg.width
  let target : Int := if current > 60 then 60 else 240
  { s with
      leftMenuBg := { s.leftMenuBg with maxW := 240 }
      menuAnim := some ⟨current, target, 300⟩
      trace := s.trace ++ [Action.animStart PanelId.mainMenu current target] }

/-- Completion of the menu width animation: the property animation leaves
minimumWidth at its end value, the connected finalize closure then pins
minimumWidth and maximumWidth to the captured target, and the layout
recomputes the rendered width within those bounds. -/
def complete_menu_animation (s : ViewState) : ViewState :=
  match s.menuAnim with
  | some a =>
    let p : Panel := { minW := a.endVal, maxW := a.endVal,
                       width := clampWidth a.endVal a.endVal s.leftMenuBg.width }
    { s with leftMenuBg := p, menuAnim := none }
  | none => s

/-- MainWindowView.toggle_extra_left_box: collapsed extent 0, expanded 240,
minimumWidth animation toward the chosen target. -/
def toggle_extra_left_box (s : ViewState) : ViewState :=
  let current := s.extraLeftBox.width
  let target : Int := if current > 0 then 0 else 240
  { s with
      extraLeftAnim := some ⟨current, target, 300⟩
      trace := s.trace ++ [Action.animStart PanelId.extraLeft current target] }

/-- Completion of the extra left box animation and its finalize closure. -/
def complete_extra_left_animation (s : ViewState) : ViewState :=
  match s.extraLeftAnim with
  | some a =>
    let p : Panel := { minW := a.endVal, maxW := a.endVal,
                       width := clampWidth a.endVal a.endVal s.extraLeftBox.width }
    { s with extraLeftBox := p, extraLeftAnim := none }
  | none => s

/-- MainWindowView.toggle_extra_right_box: collapsed extent 0, expanded
240, minimumWidth animation toward the chosen target. -/
def toggle_extra_right_box (s : ViewState) : ViewState :=
  let current := s.extraRightBox.width
  let target : Int := if current > 0 then 0 else 240
  { s with
      extraRightAnim := some ⟨current, target, 300⟩
      trace := s.trace ++ [Action.animStart PanelId.extraRight current target] }

/-- Completion of the extra right box animation and its finalize closure. -/
def complete_extra_right_animation (s : ViewState) : ViewState :=
  match s.extraRightAnim with
  | some a =>
    let p : Panel := { minW := a.endVal, maxW := a.endVal,
                       width := clampWidth a.endVal a.endVal s.extraRightBox.width }
    { s with extraRightBox := p, extraRightAnim := none }
  | none => s

/-- MainWindowView.on_settings_clicked: toggle the right settings panel,
then emit settings_requested. -/
def on_settings_clicked (s : ViewState) : ViewState :=
  let s1 := toggle_extra_right_box s
  { s1 with trace := s1.trace ++ [Action.emit Event.settingsRequested] }

/-- A user click on the top settings button: connect_signals wires
settingsTopBtn.clicked to on_settings_clicked and to nothing else. -/
def click_settings_top_btn (s : ViewState) : ViewState :=
  on_settings_clicked s

/-- The view state right after build_ui, connect_signals and apply_styles:
menu buttons checkable and unchecked, all buttons enabled (the Qt default),
page index 0, title label Home, credits label at the default text, empty
table, main menu pinned at 240 and both extra panels pinned at 0, no
running animation, no timer, nothing emitted. -/
def builtView : ViewState where
  menuButtons :=
    [("home", ⟨false, false, true⟩),
     ("widgets", ⟨false, false, true⟩),
     ("new", ⟨false, false, true⟩)]
  btn_save_enabled := true
  btn_exit_enabled := true
  toggleButton_enabled := true
  toggleLeftBox_enabled := true
  settingsTopBtn_enabled := true
  minimizeAppBtn_enabled := true
  maximizeRestoreAppBtn_enabled := true
  closeAppBtn_enabled := true
  extraCloseColumnBtn_enabled := true
  btn_message_enabled := true
  btn_print_enabled := true
  btn_logout_enabled := true
  btn_adjustments_enabled := true
  btn_more_enabled := true
  stackedIndex := 0
  titleRightInfo := "Home"
  creditsLabel := "By: Wanderson M. Pimenta"
  defaultStatusText := "By: Wanderson M. Pimenta"
  table := []
  leftMenuBg := ⟨240, 240, 240⟩
  extraLeftBox := ⟨0, 0, 0⟩
  extraRightBox := ⟨0, 0, 0⟩
  menuAnim := none
  extraLeftAnim := none
  extraRightAnim := none
  timers := []
  trace := []

/-- The fully constructed view: the tail of MainWindowView.init performs
select_menu("home"), set_form_enabled(True) and
show_status_message("Ready") with the default duration 3000, in that
order, before any external wiring can run. -/
def mkView : ViewState :=
  show_status_message "Ready" 3000 (set_form_enabled true (select_menu "home" builtView))

/-- The valid menu ids: the keys of the menu button dict. -/
def validMenuIds : List String := ["home", "widgets", "new"]

/-- The ids of the menu buttons of a state, in dict order. -/
def menuKeys (s : ViewState) : List String := s.menuButtons.map Prod.fst

/-- The ids of the menu buttons whose checked flag is true. -/
def checkedKeys (s : ViewState) : List String :=
  (s.menuButtons.filter (fun p => p.2.checked)).map Prod.fst

/-- The ids of the menu buttons whose selected property is true. -/
def selectedKeys (s : ViewState) : List String :=
  (s.menuButtons.filter (fun p => p.2.selectedProp)).map Prod.fst

/-- Run a sequence of select_menu calls from left to right. -/
def selectSeq (s : ViewState) (ids : List String) : ViewState :=
  ids.foldl (fun st m => select_menu m st) s

/-- The enabled flags of every clickable control of the view, including
the six buttons that set_form_enabled does not visit. -/
def interactiveEnabledFlags (s : ViewState) : List Bool :=
  s.menuButtons.map (fun p => p.2.enabled) ++
    [s.btn_save_enabled, s.btn_exit_enabled, s.toggleButton_enabled,
     s.toggleLeftBox_enabled, s.settingsTopBtn_enabled,
     s.minimizeAppBtn_enabled, s.maximizeRestoreAppBtn_enabled,
     s.closeAppBtn_enabled, s.extraCloseColumnBtn_enabled,
     s.btn_message_enabled, s.btn_print_enabled, s.btn_logout_enabled,
     s.btn_adjustments_enabled, s.btn_more_enabled]

theorem menuKeys_select_menu (m : String) (s : ViewState) :
    menuKeys (select_menu m s) = menuKeys s := by
  unfold select_menu menuKeys
  cases h : List.lookup m indexMap <;> simp [h, List.map_map]

theorem trace_select_menu (m : String) (s : ViewState) :
    (select_menu m s).trace = s.trace := by
  unfold select_menu
  cases h : List.lookup m indexMap <;> simp [h]

theorem map_fst_filter_checked (m : String) (l : List (String × MenuButton)) :
    ((l.map (fun p =>
        (p.1, { p.2 with checked := p.1 == m, selectedProp := p.1 == m }))).filter
      (fun p => p.2.checked)).map Prod.fst
    = (l.map Prod.fst).filter (fun k => k == m) := by
  induction l with
  | nil => rfl
  | cons x xs ih =>
    cases h : x.1 == m <;> simp [List.filter_cons, h, ih]

theorem map_fst_filter_selected (m : String) (l : List (String × MenuButton)) :
    ((l.map (fun p =>
        (p.1, { p.2 with checked := p.1 == m, selectedProp := p.1 == m }))).filter
      (fun p => p.2.selectedProp)).map Prod.fst
    = (l.map Prod.fst).filter (fun k => k == m) := by
  induction l with
  | nil => rfl
  | cons x xs ih =>
    cases h : x.1 == m <;> simp [List.filter_cons, h, ih]

theorem checkedKeys_select_menu (m : String) (s : ViewState) :
    checkedKeys (select_menu m s) = (menuKeys s).filter (fun k => k == m) := by
  unfold select_menu checkedKeys menuKeys
  cases h : List.lookup m indexMap <;> simp only [h] <;>
    exact map_fst_filter_checked m s.menuButtons

theorem selectedKeys_select_menu (m : String) (s : ViewState) :
    selectedKeys (select_menu m s) = (menuKeys s).filter (fun k => k == m) := by
  unfold select_menu selectedKeys menuKeys
  cases h : List.lookup m indexMap <;> simp only [h] <;>
    exact map_fst_filter_selected m s.menuButtons

theorem filter_validMenuIds_self (m : String) (hm : m ∈ validMenuIds) :
    validMenuIds.filter (fun k => k == m) = [m] := by
  simp [validMenuIds] at hm
  rcases hm with h | h | h <;> subst h <;> decide

theorem filter_validMenuIds_none (m : String) (hm : m ∉ validMenuIds) :
    validMenuIds.filter (fun k => k == m) = [] := by
  simp [validMenuIds] at hm
  obtain ⟨h1, h2, h3⟩ := hm
  simp [validMenuIds, List.filter_cons, beq_iff_eq, Ne.symm h1, Ne.symm h2, Ne.symm h3]

theorem menuKeys_selectSeq (s : ViewState) (ids : List String) :
    menuKeys (selectSeq s ids) = menuKeys s := by
  induction ids generalizing s with
  | nil => rfl
  | cons x xs ih =>
    calc menuKeys (selectSeq s (x :: xs))
        = menuKeys (selectSeq (select_menu x s) xs) := rfl
      _ = menuKeys (select_menu x s) := ih (select_menu x s)
      _ = menuKeys s := menuKeys_select_menu x s

theorem selectSeq_append_singleton (s : ViewState) (ms : List String) (m : String) :
    selectSeq s (ms ++ [m]) = select_menu m (selectSeq s ms) := by
  simp [selectSeq, List.foldl_append]

theorem lookup_indexMap_eq_none (m : String) (hm : m ∉ validMenuIds) :
    List.lookup m indexMap = none := by
  simp [validMenuIds] at hm
  obtain ⟨h1, h2, h3⟩ := hm
  have e1 : (m == "home") = false := by simp [h1]
  have e2 : (m == "widgets") = false := by simp [h2]
  have e3 : (m == "new") = false := by simp [h3]
  simp [indexMap, List.lookup, e1, e2, e3]

/-- Claim C1: for every sequence of select_menu calls with valid ids
(home, widgets, new), after each call exactly one menu button carries the
checked flag and the selected property, and it is the button of the most
recently selected id.  Every intermediate state of a valid sequence is of
the form selectSeq s (ms ++ [m]), so the statement covers each call of the
sequence. -/
theorem c1_single_selection (s : ViewState) (ms : List String) (m : String)
    (hkeys : menuKeys s = validMenuIds)
    (hms : ∀ x ∈ ms, x ∈ validMenuIds) (hm : m ∈ validMenuIds) :
    checkedKeys (selectSeq s (ms ++ [m])) = [m] ∧
    selectedKeys (selectSeq s (ms ++ [m])) = [m] := by
  have hk : menuKeys (selectSeq s ms) = validMenuIds := by
    rw [menuKeys_selectSeq]; exact hkeys
  rw [selectSeq_append_singleton]
  exact ⟨by rw [checkedKeys_select_menu, hk, filter_validMenuIds_self m hm],
         by rw [selectedKeys_select_menu, hk, filter_validMenuIds_self m hm]⟩

/-- Witness for C1 at the constructed view and the sequence widgets, new. -/
theorem c1_single_selection_witness :
    menuKeys mkView = validMenuIds ∧
    (∀ x ∈ ["widgets"], x ∈ validMenuIds) ∧ "new" ∈ validMenuIds ∧
    checkedKeys (selectSeq mkView (["widgets"] ++ ["new"])) = ["new"] ∧
    selectedKeys (selectSeq mkView (["widgets"] ++ ["new"])) = ["new"] :=
  ⟨by decide, by decide, by decide,
   (c1_single_selection mkView ["widgets"] "new" (by decide) (by decide) (by decide)).1,
   (c1_single_selection mkView ["widgets"] "new" (by decide) (by decide) (by decide)).2⟩

/-- Claim C3: selecting an id that names no menu item is a total operation
(select_menu is a function, no exception path exists), leaves the stacked
content page unchanged, and leaves no menu button checked or selected. -/
theorem c3_unknown_menu_id (s : ViewState) (m : String)
    (hkeys : menuKeys s = validMenuIds) (hm : m ∉ validMenuIds) :
    (select_menu m s).stackedIndex = s.stackedIndex ∧
    checkedKeys (select_menu m s) = [] ∧
    selectedKeys (select_menu m s) = [] := by
  have hlk := lookup_indexMap_eq_none m hm
  refine ⟨?_, ?_, ?_⟩
  · unfold select_menu
    simp [hlk]
  · rw [checkedKeys_select_menu, hkeys, filter_validMenuIds_none m hm]
  · rw [selectedKeys_select_menu, hkeys, filter_validMenuIds_none m hm]

/-- Witness for C3 at the constructed view and the unknown id bogus. -/
theorem c3_unknown_menu_id_witness :
    menuKeys mkView = validMenuIds ∧ "bogus" ∉ validMenuIds ∧
    (select_menu "bogus" mkView).stackedIndex = mkView.stackedIndex ∧
    checkedKeys (select_menu "bogus" mkView) = [] ∧
    selectedKeys (select_menu "bogus" mkView) = [] :=
  ⟨by decide, by decide,
   (c3_unknown_menu_id mkView "bogus" (by decide) (by decide)).1,
   (c3_unknown_menu_id mkView "bogus" (by decide) (by decide)).2.1,
   (c3_unknown_menu_id mkView "bogus" (by decide) (by decide)).2.2⟩

/-- Claim C4: a user click on a menu button runs on_menu_clicked, which
appends exactly one menu_changed emission to the trace; the constructed
view, whose init already performed select_menu("home") and
set_form_enabled(True), has an empty trace, so the startup selection
emitted nothing. -/
theorem c4_menu_changed_once :
    (∀ (s : ViewState) (m : String),
      (click_menu_button m s).trace = s.trace ++ [Action.emit (Event.menuChanged m)]) ∧
    mkView.trace = [] := by
  constructor
  · intro s m
    simp [click_menu_button, on_menu_clicked, trace_select_menu]
  · decide

/-- Claim C9: select_menu rewrites the title label unconditionally from the
id, underscores mapped to spaces then title-cased, also for ids that name
no menu item; selecting the unknown id does_not_exist changes the title to
Does Not Exist while the page stays put. -/
theorem c9_title_always_rewritten :
    (∀ (s : ViewState) (m : String),
      (select_menu m s).titleRightInfo = pythonTitle (replaceUnderscoreWithSpace m)) ∧
    (select_menu "does_not_exist" mkView).titleRightInfo = "Does Not Exist" ∧
    (select_menu "does_not_exist" mkView).stackedIndex = mkView.stackedIndex := by
  refine ⟨?_, by decide, by decide⟩
  intro s m
  unfold select_menu
  cases h : List.lookup m indexMap <;> simp [h]

/-- Claim C10: a click on the top settings button runs on_settings_clicked
and nothing else; it appends to the trace exactly the start of the right
settings panel width animation followed by one settings_requested
emission, so the two effects always occur together and in that order. -/
theorem c10_settings_click_coupled (s : ViewState) :
    (click_settings_top_btn s).trace =
      s.trace ++
        [Action.animStart PanelId.extraRight s.extraRightBox.width
          (if s.extraRightBox.width > 0 then 0 else 240),
         Action.emit Event.settingsRequested] ∧
    (click_settings_top_btn s).extraRightAnim =
      some ⟨s.extraRightBox.width, if s.extraRightBox.width > 0 then 0 else 240, 300⟩ := by
  unfold click_settings_top_btn on_settings_clicked toggle_extra_right_box
  simp

/-- Claim C5: each of the three toggles reads the current width of its
panel, targets the collapsed extent when the width exceeds it and the
expanded extent otherwise (main menu 60 and 240, both extra boxes 0 and
240), starts the width animation from the current width toward the target,
and on completion the finalize closure pins both minimumWidth and
maximumWidth to the target. -/
theorem c5_toggle_targets (s : ViewState) :
    ((toggle_menu s).menuAnim =
        some ⟨s.leftMenuBg.width, if s.leftMenuBg.width > 60 then 60 else 240, 300⟩ ∧
      (complete_menu_animation (toggle_menu s)).leftMenuBg.minW =
        (if s.leftMenuBg.width > 60 then 60 else 240) ∧
      (complete_menu_animation (toggle_menu s)).leftMenuBg.maxW =
        (if s.leftMenuBg.width > 60 then 60 else 240)) ∧
    ((toggle_extra_left_box s).extraLeftAnim =
        some ⟨s.extraLeftBox.width, if s.extraLeftBox.width > 0 then 0 else 240, 300⟩ ∧
      (complete_extra_left_animation (toggle_extra_left_box s)).extraLeftBox.minW =
        (if s.extraLeftBox.width > 0 then 0 else 240) ∧
      (complete_extra_left_animation (toggle_extra_left_box s)).extraLeftBox.maxW =
        (if s.extraLeftBox.width > 0 then 0 else 240)) ∧
    ((toggle_extra_right_box s).extraRightAnim =
        some ⟨s.extraRightBox.width, if s.extraRightBox.width > 0 then 0 else 240, 300⟩ ∧
      (complete_extra_right_animation (toggle_extra_right_box s)).extraRightBox.minW =
        (if s.extraRightBox.width > 0 then 0 else 240) ∧
      (complete_extra_right_animation (toggle_extra_right_box s)).extraRightBox.maxW =
        (if s.extraRightBox.width > 0 then 0 else 240)) := by
  refine ⟨⟨?_, ?_, ?_⟩, ⟨?_, ?_, ?_⟩, ⟨?_, ?_, ?_⟩⟩ <;>
    simp [toggle_menu, complete_menu_animation,
      toggle_extra_left_box, complete_extra_left_animation,
      toggle_extra_right_box, complete_extra_right_animation]

/-- Claim C6: a panel at rest at one of its extents, toggled twice with
the first animation completing (finalize applied, layout settled) before
the second toggle starts, returns to its original width extent. -/
theorem c6_toggle_involution (s : ViewState) :
    ((s.leftMenuBg.width = 60 ∨ s.leftMenuBg.width = 240) →
      (complete_menu_animation (toggle_menu
        (complete_menu_animation (toggle_menu s)))).leftMenuBg.width
        = s.leftMenuBg.width) ∧
    ((s.extraLeftBox.width = 0 ∨ s.extraLeftBox.width = 240) →
      (complete_extra_left_animation (toggle_extra_left_box
        (complete_extra_left_animation (toggle_extra_left_box s)))).extraLeftBox.width
        = s.extraLeftBox.width) ∧
    ((s.extraRightBox.width = 0 ∨ s.extraRightBox.width = 240) →
      (complete_extra_right_animation (toggle_extra_right_box
        (complete_extra_right_animation (toggle_extra_right_box s)))).extraRightBox.width
        = s.extraRightBox.width) := by
  refine ⟨?_, ?_, ?_⟩ <;> rintro (h | h) <;>
    simp [toggle_menu, complete_menu_animation,
      toggle_extra_left_box, complete_extra_left_animation,
      toggle_extra_right_box, complete_extra_right_animation, clampWidth, h]

/-- Witness for C6 at the constructed view: the main menu rests expanded
at 240 and both extra boxes rest collapsed at 0. -/
theorem c6_toggle_involution_witness :
    (complete_menu_animation (toggle_menu
      (complete_menu_animation (toggle_menu mkView)))).leftMenuBg.width
      = mkView.leftMenuBg.width ∧
    (complete_extra_left_animation (toggle_extra_left_box
      (complete_extra_left_animation (toggle_extra_left_box mkView)))).extraLeftBox.width
      = mkView.extraLeftBox.width ∧
    (complete_extra_right_animation (toggle_extra_right_box
      (complete_extra_right_animation (toggle_extra_right_box mkView)))).extraRightBox.width
      = mkView.extraRightBox.width :=
  ⟨(c6_toggle_involution mkView).1 (Or.inr (by decide)),
   (c6_toggle_involution mkView).2.1 (Or.inl (by decide)),
   (c6_toggle_involution mkView).2.2 (Or.inl (by decide))⟩

/-- Claim C7: show_status_message sets the credits label text at once; a
nonzero duration schedules exactly one reversion timer carrying that
duration, duration zero schedules nothing, and with no pending timer the
timer callback never fires, so the text stays. -/
theorem c7_show_status (s : ViewState) (m : String) (d : Int) :
    (show_status_message m d s).creditsLabel = m ∧
    (d ≠ 0 → (show_status_message m d s).timers = s.timers ++ [d]) ∧
    (show_status_message m 0 s).timers = s.timers ∧
    (s.timers = [] →
      fire_status_timer (show_status_message m 0 s) = show_status_message m 0 s) := by
  refine ⟨?_, ?_, ?_, ?_⟩
  · by_cases hd : d = 0 <;> simp [show_status_message, hd]
  · intro hd; simp [show_status_message, hd]
  · simp [show_status_message]
  · intro ht; simp [show_status_message, fire_status_timer, ht]

/-- Witness for C7 at the freshly built view (empty timer list), the
message X and the durations 3000 and 0. -/
theorem c7_show_status_witness :
    (show_status_message "X" 3000 builtView).creditsLabel = "X" ∧
    (show_status_message "X" 3000 builtView).timers = builtView.timers ++ [3000] ∧
    fire_status_timer (show_status_message "X" 0 builtView)
      = show_status_message "X" 0 builtView :=
  ⟨(c7_show_status builtView "X" 3000).1,
   (c7_show_status builtView "X" 3000).2.1 (by decide),
   (c7_show_status builtView "X" 0).2.2.2 (by decide)⟩

/-- Claim C8 counterexample: set_form_enabled(false) on the constructed
view does not set every interactive control to false: the extra left box
buttons and the right settings box buttons keep their enabled flags, so
uniformity over all interactive controls fails at this concrete input. -/
theorem c8_counterexample :
    ¬ ∀ b ∈ interactiveEnabledFlags (set_form_enabled false mkView), b = false := by
  decide

/-- Claim C8 amended: set_form_enabled(b) sets the enabled flag of the
three menu buttons, btn_save, btn_exit, toggleButton, toggleLeftBox,
settingsTopBtn, minimizeAppBtn, maximizeRestoreAppBtn and closeAppBtn
uniformly to b, and leaves the enabled flags of extraCloseColumnBtn,
btn_message, btn_print, btn_logout, btn_adjustments and btn_more
unchanged. -/
theorem c8_form_enabled_amended (b : Bool) (s : ViewState) :
    (set_form_enabled b s).menuButtons.map (fun p => (p.1, p.2.enabled))
      = s.menuButtons.map (fun p => (p.1, b)) ∧
    (set_form_enabled b s).btn_save_enabled = b ∧
    (set_form_enabled b s).btn_exit_enabled = b ∧
    (set_form_enabled b s).toggleButton_enabled = b ∧
    (set_form_enabled b s).toggleLeftBox_enabled = b ∧
    (set_form_enabled b s).settingsTopBtn_enabled = b ∧
    (set_form_enabled b s).minimizeAppBtn_enabled = b ∧
    (set_form_enabled b s).maximizeRestoreAppBtn_enabled = b ∧
    (set_form_enabled b s).closeAppBtn_enabled = b ∧
    (set_form_enabled b s).extraCloseColumnBtn_enabled = s.extraCloseColumnBtn_enabled ∧
    (set_form_enabled b s).btn_message_enabled = s.btn_message_enabled ∧
    (set_form_enabled b s).btn_print_enabled = s.btn_print_enabled ∧
    (set_form_enabled b s).btn_logout_enabled = s.btn_logout_enabled ∧
    (set_form_enabled b s).btn_adjustments_enabled = s.btn_adjustments_enabled ∧
    (set_form_enabled b s).btn_more_enabled = s.btn_more_enabled := by
  unfold set_form_enabled
  simp [List.map_map]

/-- The row that set_table_data writes for one input record: all three
cells set, absent dict keys defaulted to the empty string. -/
def rowOfRecord (r : TableRecord) : Row :=
  ⟨some (r.name.getD ""), some (r.category.getD ""), some (r.status.getD "")⟩

/-- The record that get_table_data reads back from one row. -/
def rowToRecord (r : Row) : OutRecord :=
  ⟨r.cell0.getD "", r.cell1.getD "", r.cell2.getD ""⟩

theorem length_setRowCount (n : Nat) (t : List Row) :
    (setRowCount n t).length = n := by
  simp [setRowCount]
  omega

theorem setItem_cons_succ (x : Row) (l : List Row) (n col : Nat) (v : String) :
    setItem (x :: l) (n + 1) col v = x :: setItem l n col v := by
  unfold setItem
  cases h : l[n]? <;> simp [List.get?_eq_getElem?, h]

theorem setItem_append_cons (a : List Row) (r : Row) (b : List Row)
    (col : Nat) (v : String) :
    setItem (a ++ r :: b) a.length col v = a ++ r.setCell col v :: b := by
  induction a with
  | nil => rfl
  | cons x xs ih =>
    show setItem (x :: (xs ++ r :: b)) (xs.length + 1) col v
      = x :: (xs ++ r.setCell col v :: b)
    rw [setItem_cons_succ, ih]

theorem setRowsFrom_append (recs : List TableRecord) :
    ∀ (a b : List Row), b.length = recs.length →
      setRowsFrom a.length recs (a ++ b) = a ++ recs.map rowOfRecord := by
  induction recs with
  | nil =>
    intro a b hb
    rw [List.length_eq_zero.mp hb]
    simp [setRowsFrom]
  | cons r rs ih =>
    intro a b hb
    cases b with
    | nil => simp at hb
    | cons br bs =>
      have hb' : bs.length = rs.length := by simpa using hb
      show setRowsFrom (a.length + 1) rs
          (setItem (setItem (setItem (a ++ br :: bs) a.length 0 (r.name.getD ""))
            a.length 1 (r.category.getD "")) a.length 2 (r.status.getD ""))
        = a ++ (rowOfRecord r :: rs.map rowOfRecord)
      rw [setItem_append_cons, setItem_append_cons, setItem_append_cons]
      have hrow : ((br.setCell 0 (r.name.getD "")).setCell 1
          (r.category.getD "")).setCell 2 (r.status.getD "") = rowOfRecord r := rfl
      rw [hrow]
      have hsplit : a ++ rowOfRecord r :: bs = (a ++ [rowOfRecord r]) ++ bs := by
        simp
      have hlen : a.length + 1 = (a ++ [rowOfRecord r]).length := by simp
      rw [hsplit, hlen, ih (a ++ [rowOfRecord r]) bs hb']
      simp

theorem set_table_data_eq (data : List TableRecord) (t : List Row) :
    set_table_data data t = data.map rowOfRecord := by
  unfold set_table_data
  have h := setRowsFrom_append data [] (setRowCount data.length t)
    (length_setRowCount data.length t)
  simpa using h

theorem get_table_data_eq (t : List Row) :
    get_table_data t = t.map rowToRecord := by
  induction t with
  | nil => rfl
  | cons x xs ih =>
    unfold get_table_data
    rw [List.length_cons, List.range_succ_eq_map, List.map_cons, List.map_map]
    have hcomp :
        ((fun row => (⟨item_text (x :: xs) row 0, item_text (x :: xs) row 1,
            item_text (x :: xs) row 2⟩ : OutRecord)) ∘ Nat.succ)
          = fun row => (⟨item_text xs row 0, item_text xs row 1,
            item_text xs row 2⟩ : OutRecord) := by
      funext i; rfl
    rw [hcomp]
    show rowToRecord x :: get_table_data xs = (x :: xs).map rowToRecord
    rw [ih, List.map_cons]

/-- Claim C2: set_table_data(records) followed by get_table_data() returns
one record per input record in order, with each of name, category and
status defaulted to the empty string when absent; the result does not
depend on the prior table contents, so set_table_data fully replaces all
prior rows. -/
theorem c2_table_round_trip (data : List TableRecord) (t : List Row) :
    get_table_data (set_table_data data t)
      = data.map (fun r =>
          (⟨r.name.getD "", r.category.getD "", r.status.getD ""⟩ : OutRecord)) := by
  rw [set_table_data_eq, get_table_data_eq, List.map_map]
  rfl

end PyDracula
